import Mathlib

/-!
Verification of the RssBot adaptive inter-service call router.

The definitions below are a shallow embedding of the routing, caching,
admission-queue and fan-out code of the repository:

- `src/rssbot/models/service_registry.py` (the `RegisteredService` record and
  its `get_effective_connection_method`),
- `src/rssbot/discovery/cached_registry.py` (`CachedServiceRegistry`),
- `src/rssbot/discovery/registry.py` (`ServiceRegistryManager`),
- `src/rssbot/discovery/proxy.py` (`ServiceProxy._execute_service_call`),
- `evox/core/queue.py` (`PriorityAwareQueue`),
- `evox/core/scheduler.py` (`CallScheduler.parallel`).

Database timestamps (`created_at`, `updated_at`) are abstracted away; time
values are `Nat`.  Redis is modelled as a reliable key-value store guarded by
the `redisAvailable` flag, mirroring how every Redis access in the source is
guarded by `_redis_available`.
-/

set_option maxHeartbeats 1000000

namespace RssBot

/-- The connection methods of `ConnectionMethod` in
`src/rssbot/models/service_registry.py`: `router` is the in-process mode the
spec calls Local, `rest` the HTTP mode the spec calls Remote, and `disabled`
the manually disabled mode. -/
inductive ConnectionMethod where
  | router
  | rest
  | disabled
deriving DecidableEq, Repr

/-- Python truthiness of an `Optional[str]` field: `None` and the empty string
are falsy, any other string is truthy.  This is the test `if self.rest_url`
performs in the source. -/
def optStrTruthy : Option String → Bool
  | none => false
  | some s => s != ""

/-- The `RegisteredService` record of
`src/rssbot/models/service_registry.py`, restricted to the fields the routing
logic reads.  `health_status` is a free string in the source (the docstring
enumerates healthy, degraded, down, unknown but nothing enforces it), so it is
a `String` here as well.  `last_health_check` keeps an abstract `Nat` time. -/
structure RegisteredService where
  name : String
  connection_method : ConnectionMethod
  rest_url : Option String
  is_active : Bool
  health_status : String
  has_router : Bool
  router_path : Option String
  last_health_check : Option Nat
deriving DecidableEq, Repr

/-- Direct translation of `RegisteredService.get_effective_connection_method`
(`src/rssbot/models/service_registry.py`, lines 79-97), keeping the source's
evaluation order of the four branches. -/
def RegisteredService.getEffectiveConnectionMethod (svc : RegisteredService) : ConnectionMethod :=
  if !svc.is_active then .disabled
  else if svc.connection_method == .disabled then .disabled
  else if svc.connection_method == .router && svc.has_router &&
      (svc.health_status == "healthy" || svc.health_status == "unknown") then .router
  else if optStrTruthy svc.rest_url &&
      (svc.health_status == "healthy" || svc.health_status == "degraded" ||
       svc.health_status == "unknown") then .rest
  else .disabled

/-- The predicate "a remote address is set" of the spec's reference policy.  A
present, non-empty address counts as set; the spec models `remote_address` as
an optional field, abstracting the source's None-or-empty-string states into
"unset". -/
def remoteAddressSet : Option String → Prop
  | none => False
  | some u => u ≠ ""

instance (o : Option String) : Decidable (remoteAddressSet o) :=
  match o with
  | none => isFalse (fun h => h)
  | some u =>
    if h : u = "" then isFalse (fun hc => hc h)
    else isTrue h

/-- The four-step reference policy, written from the spec's words (section 4.2
of the spec, quoted in the claim): step 1 disables inactive or disabled
records, step 2 prefers Local while healthy or unknown, step 3 falls back to
Remote while healthy, degraded or unknown, step 4 disables. -/
def specEffectiveMode (svc : RegisteredService) : ConnectionMethod :=
  if svc.is_active = false ∨ svc.connection_method = .disabled then .disabled
  else if svc.connection_method = .router ∧ svc.has_router = true ∧
      (svc.health_status = "healthy" ∨ svc.health_status = "unknown") then .router
  else if remoteAddressSet svc.rest_url ∧
      (svc.health_status = "healthy" ∨ svc.health_status = "degraded" ∨
       svc.health_status = "unknown") then .rest
  else .disabled

/-- C1: for every service record, the code's effective connection method
equals the spec's four-step reference policy evaluated on the record's fields
(preferred mode `connection_method`, local target `has_router`, remote address
`rest_url`, activity flag and health status). -/
theorem getEffectiveConnectionMethod_eq_specEffectiveMode (svc : RegisteredService) :
    svc.getEffectiveConnectionMethod = specEffectiveMode svc := by
  unfold RegisteredService.getEffectiveConnectionMethod specEffectiveMode
  cases hact : svc.is_active <;>
    cases hcm : svc.connection_method <;>
      cases hrt : svc.has_router <;>
        cases hurl : svc.rest_url <;>
          simp_all [optStrTruthy, remoteAddressSet] <;>
            split_ifs <;> simp_all

/-- The Python exceptions the routing layer can raise, as they appear in
`src/rssbot/discovery/proxy.py`, `cached_registry.py` and
`src/rssbot/core/exceptions.py`.  `valueError` is the guard of
`should_use_router` / `get_effective_connection_method` for an invalid name;
`attributeError` is raised by `_call_via_router` when the method is missing on
the router module (and by `_call_via_rest` on a 404); `serviceUnavailable`
carries the service name and the `attempted_methods` list of
`ServiceUnavailableError`; `serviceError` and `httpError` stand for the
remaining failure shapes. -/
inductive PyError where
  | valueError
  | attributeError (msg : String)
  | serviceUnavailable (service : String) (attempted : List String)
  | serviceError (msg : String)
  | httpError (status : Nat)
deriving DecidableEq, Repr

/-- State of `CachedServiceRegistry` in
`src/rssbot/discovery/cached_registry.py`: the database rows behind
`ServiceRegistryManager` (a list, looked up first-match like the SQL
`select ... .first()`), the `_redis_available` flag, and the Redis keys
`rssbot:service:NAME:method` and `rssbot:service:NAME:health` as maps from
service name to stored value. -/
structure CacheState where
  registry : List RegisteredService
  redisAvailable : Bool
  methodCache : String → Option ConnectionMethod
  healthCache : String → Option String

/-- Translation of `ServiceRegistryManager.get_service_by_name`
(`src/rssbot/discovery/registry.py`, lines 185-192): first row whose name
matches. -/
def getServiceByName (st : CacheState) (name : String) : Option RegisteredService :=
  st.registry.find? (fun svc => svc.name == name)

/-- Helper for `updateHealthStatus`: rewrite the first row matching `name`,
the row the `select ... .first()` of `update_health_status` mutates. -/
def updateFirstService : List RegisteredService → String → String → Nat → List RegisteredService
  | [], _, _, _ => []
  | svc :: rest, name, status, now =>
    if svc.name == name then
      { svc with health_status := status, last_health_check := some now } :: rest
    else
      svc :: updateFirstService rest name status now

/-- Translation of `ServiceRegistryManager.update_health_status`
(`src/rssbot/discovery/registry.py`, lines 225-239): returns `false` and
leaves the database unchanged when the name is unknown, otherwise sets the
first matching row's `health_status` and `last_health_check`. -/
def updateHealthStatus (st : CacheState) (name status : String) (now : Nat) :
    Bool × CacheState :=
  match getServiceByName st name with
  | none => (false, st)
  | some _ => (true, { st with registry := updateFirstService st.registry name status now })

/-- Translation of `CachedServiceRegistry.get_effective_connection_method`
(`src/rssbot/discovery/cached_registry.py`, lines 112-158): an empty name
fails the `if not service_name` guard and raises `ValueError`; otherwise the
Redis `:method` key is consulted when Redis is available, a miss falls back to
the database, an unknown service yields the `REST` default without caching,
and a computed value is written back to Redis with the cache TTL. -/
def CacheState.getEffectiveConnectionMethod (st : CacheState) (name : String) :
    Except PyError ConnectionMethod × CacheState :=
  if name == "" then (.error .valueError, st)
  else
    match (if st.redisAvailable then st.methodCache name else none) with
    | some m => (.ok m, st)
    | none =>
      match getServiceByName st name with
      | none => (.ok .rest, st)
      | some svc =>
        let m := svc.getEffectiveConnectionMethod
        let st' :=
          if st.redisAvailable then
            { st with methodCache := fun s => if s = name then some m else st.methodCache s }
          else st
        (.ok m, st')

/-- Translation of `CachedServiceRegistry.should_use_router`
(`src/rssbot/discovery/cached_registry.py`, lines 87-110). -/
def CacheState.shouldUseRouter (st : CacheState) (name : String) :
    Except PyError Bool × CacheState :=
  match st.getEffectiveConnectionMethod name with
  | (.ok m, st') => (.ok (m == .router), st')
  | (.error e, st') => (.error e, st')

/-- Translation of `CachedServiceRegistry.update_service_health_cached`
(`src/rssbot/discovery/cached_registry.py`, lines 246-272): write the status
to the database via `update_health_status`, then, when Redis is available,
store the `:health` snapshot and delete the `:method` key so the next lookup
recomputes. -/
def CacheState.updateServiceHealthCached (st : CacheState) (name status : String) (now : Nat) :
    CacheState :=
  let st1 := (updateHealthStatus st name status now).2
  if st1.redisAvailable then
    { st1 with
      healthCache := fun s => if s = name then some status else st1.healthCache s,
      methodCache := fun s => if s = name then none else st1.methodCache s }
  else st1

/-- A record whose health is the literal string "down" derives the `disabled`
effective method: the Local branch requires healthy or unknown, the Remote
branch healthy, degraded or unknown. -/
lemma getEffectiveConnectionMethod_of_down (svc : RegisteredService)
    (h : svc.health_status = "down") : svc.getEffectiveConnectionMethod = .disabled := by
  unfold RegisteredService.getEffectiveConnectionMethod
  cases svc.is_active <;> cases svc.connection_method <;> simp [h]

/-- Finding a service after `updateFirstService` yields the rewritten row:
the first-match discipline of `get_service_by_name` agrees with the
first-match discipline of `update_health_status`. -/
lemma find_updateFirstService (l : List RegisteredService) (name status : String) (now : Nat) :
    (updateFirstService l name status now).find? (fun svc => svc.name == name) =
      (l.find? (fun svc => svc.name == name)).map
        (fun svc => { svc with health_status := status, last_health_check := some now }) := by
  induction l with
  | nil => simp [updateFirstService]
  | cons svc rest ih =>
    by_cases h : svc.name = name
    · simp [updateFirstService, List.find?, h]
    · have hb : (svc.name == name) = false := by simp [h]
      simp [updateFirstService, List.find?, hb, ih]

/-- `updateServiceHealthCached` leaves `redisAvailable` unchanged. -/
lemma updateServiceHealthCached_redisAvailable (st : CacheState) (name status : String)
    (now : Nat) :
    (st.updateServiceHealthCached name status now).redisAvailable = st.redisAvailable := by
  unfold CacheState.updateServiceHealthCached
  unfold updateHealthStatus
  cases h : getServiceByName st name <;> simp [h] <;> split <;> rfl

/-- The health write leaves the database rows untouched when the name is
unknown to the Registry. -/
lemma updateServiceHealthCached_registry_of_notFound (st : CacheState) (name status : String)
    (now : Nat) (h : getServiceByName st name = none) :
    (st.updateServiceHealthCached name status now).registry = st.registry := by
  unfold CacheState.updateServiceHealthCached updateHealthStatus
  rw [h]
  dsimp only
  split <;> rfl

/-- After `updateServiceHealthCached name status`, looking the service up in
the database yields the row with the written status (when the row existed). -/
lemma getServiceByName_updateServiceHealthCached (st : CacheState) (name status : String)
    (now : Nat) (svc : RegisteredService) (h : getServiceByName st name = some svc) :
    getServiceByName (st.updateServiceHealthCached name status now) name =
      some { svc with health_status := status, last_health_check := some now } := by
  have hreg : (st.updateServiceHealthCached name status now).registry =
      updateFirstService st.registry name status now := by
    unfold CacheState.updateServiceHealthCached updateHealthStatus
    rw [h]
    dsimp only
    split <;> rfl
  unfold getServiceByName
  rw [hreg, find_updateFirstService]
  unfold getServiceByName at h
  rw [h]
  rfl

/-- C2: a health write through the cache layer immediately removes the cached
effective-mode entry for the service — the Redis `:method` key is deleted by
`update_service_health_cached` — and a subsequent `get_effective_connection_method`
after writing health "down" recomputes from the Registry and cannot return
`router` (the stale Local decision): the recomputation yields `disabled` for a
known service, the `rest` default for an unknown one, and the empty-name guard
error otherwise. -/
theorem healthWrite_invalidates_modeCache (st : CacheState) (name status : String) (now : Nat)
    (h : st.redisAvailable = true) :
    (st.updateServiceHealthCached name status now).methodCache name = none ∧
      ((st.updateServiceHealthCached name "down" now).getEffectiveConnectionMethod name).1 ≠
        .ok .router := by
  constructor
  · unfold CacheState.updateServiceHealthCached updateHealthStatus
    cases hfind : getServiceByName st name <;> simp [hfind, h]
  · set post := st.updateServiceHealthCached name "down" now with hpost
    have havail : post.redisAvailable = true := by
      rw [hpost, updateServiceHealthCached_redisAvailable]; exact h
    have hcache : post.methodCache name = none := by
      rw [hpost]
      unfold CacheState.updateServiceHealthCached updateHealthStatus
      cases hfind : getServiceByName st name <;> simp [hfind, h]
    unfold CacheState.getEffectiveConnectionMethod
    by_cases hname : name = ""
    · simp [hname]
    · have hnb : (name == "") = false := by simp [hname]
      rw [hnb]
      simp only [Bool.false_eq_true, if_false, havail, if_true, hcache]
      cases hfind : getServiceByName post name with
      | none => simp
      | some svc' =>
        have hdown : svc'.health_status = "down" := by
          cases hfind0 : getServiceByName st name with
          | none =>
            exfalso
            have hreg := updateServiceHealthCached_registry_of_notFound st name "down" now hfind0
            have hnone : getServiceByName post name = none := by
              rw [hpost]
              unfold getServiceByName
              rw [hreg]
              unfold getServiceByName at hfind0
              exact hfind0
            rw [hnone] at hfind
            exact Option.noConfusion hfind
          | some svc0 =>
            have h2 := getServiceByName_updateServiceHealthCached st name "down" now svc0 hfind0
            rw [← hpost] at h2
            rw [hfind] at h2
            injection h2 with h2
            simp [h2]
        simp [getEffectiveConnectionMethod_of_down svc' hdown]

/-- Witness for C2 at a concrete state: one healthy router service with a
stale cached `router` decision, Redis available. -/
theorem healthWrite_invalidates_modeCache_witness :
    let svc : RegisteredService :=
      { name := "ai_svc", connection_method := .router, rest_url := some "http://x",
        is_active := true, health_status := "healthy", has_router := true,
        router_path := some "services.ai_svc.router", last_health_check := none }
    let st : CacheState :=
      { registry := [svc], redisAvailable := true,
        methodCache := fun s => if s = "ai_svc" then some .router else none,
        healthCache := fun _ => none }
    (st.updateServiceHealthCached "ai_svc" "down" 7).methodCache "ai_svc" = none ∧
      ((st.updateServiceHealthCached "ai_svc" "down" 7).getEffectiveConnectionMethod "ai_svc").1 ≠
        .ok .router := by
  exact healthWrite_invalidates_modeCache _ "ai_svc" "down" 7 rfl

/-- C10 counterexample: the cache-layer effective-mode lookup CAN raise for a
name unknown to the Registry — the empty name fails the
`if not service_name or not isinstance(service_name, str)` guard of
`get_effective_connection_method` and raises `ValueError` before the Registry
is ever consulted, even though the empty name is unknown to the (here empty)
Registry. -/
theorem unknown_service_emptyName_raises :
    let st : CacheState :=
      { registry := [], redisAvailable := true,
        methodCache := fun _ => none, healthCache := fun _ => none }
    (st.getEffectiveConnectionMethod "").1 = .error .valueError ∧
      getServiceByName st "" = none := by
  constructor
  · rfl
  · rfl

/-- C10 as amended: for every NON-EMPTY service name unknown to the Registry,
the cache-layer lookup never raises — it returns some connection method
(a stale cached one if present, otherwise the conservative `rest` default,
logging a warning); in particular, on a cache miss the result is exactly the
`rest` default. -/
theorem unknown_service_defaults_rest (st : CacheState) (name : String)
    (h1 : name ≠ "") (h2 : getServiceByName st name = none) :
    (∃ m, (st.getEffectiveConnectionMethod name).1 = .ok m) ∧
      ((st.redisAvailable = true → st.methodCache name = none) →
        (st.getEffectiveConnectionMethod name).1 = .ok .rest) := by
  have hnb : (name == "") = false := by simp [h1]
  unfold CacheState.getEffectiveConnectionMethod
  rw [hnb]
  simp only [Bool.false_eq_true, if_false]
  cases hav : st.redisAvailable with
  | false =>
    simp only [if_false, h2]
    exact ⟨⟨.rest, rfl⟩, fun _ => rfl⟩
  | true =>
    simp only [if_true]
    cases hm : st.methodCache name with
    | some m =>
      refine ⟨⟨m, rfl⟩, fun hmiss => ?_⟩
      exact Option.noConfusion (hmiss trivial)
    | none => simp [h2]

/-- Witness for the amended C10 at a concrete state: Redis down, empty
Registry, looking up a name nobody registered. -/
theorem unknown_service_defaults_rest_witness :
    let st : CacheState :=
      { registry := [], redisAvailable := false,
        methodCache := fun _ => none, healthCache := fun _ => none }
    (∃ m, (st.getEffectiveConnectionMethod "ghost_svc").1 = .ok m) ∧
      ((st.redisAvailable = true → st.methodCache "ghost_svc" = none) →
        (st.getEffectiveConnectionMethod "ghost_svc").1 = .ok .rest) := by
  exact unknown_service_defaults_rest _ "ghost_svc" (by decide) rfl

/-- A cached-registry lookup is stable: recomputing on the state it returned
yields the same decision and leaves that state unchanged (either the value was
served from cache, or it has just been cached, or Redis is unavailable and the
database is consulted again unchanged). -/
lemma getEffectiveConnectionMethod_stable (st st1 : CacheState) (name : String)
    (m : ConnectionMethod)
    (h : st.getEffectiveConnectionMethod name = (.ok m, st1)) :
    st1.getEffectiveConnectionMethod name = (.ok m, st1) := by
  unfold CacheState.getEffectiveConnectionMethod at h ⊢
  by_cases hname : name = ""
  · simp [hname] at h
  · have hnb : (name == "") = false := by simp [hname]
    rw [hnb] at h
    rw [hnb]
    simp only [Bool.false_eq_true, if_false] at h ⊢
    cases hav : st.redisAvailable with
    | true =>
      rw [hav] at h
      simp only [eq_self_iff_true, if_true] at h
      cases hm : st.methodCache name with
      | some m0 =>
        rw [hm] at h
        simp only [Prod.mk.injEq, Except.ok.injEq] at h
        obtain ⟨hm1, hst⟩ := h
        subst hst
        subst hm1
        simp [hav, hm]
      | none =>
        rw [hm] at h
        cases hfind : getServiceByName st name with
        | none =>
          rw [hfind] at h
          simp only [Prod.mk.injEq, Except.ok.injEq] at h
          obtain ⟨hm1, hst⟩ := h
          subst hst
          subst hm1
          simp [hav, hm, hfind]
        | some svc =>
          rw [hfind] at h
          simp only [hav, eq_self_iff_true, if_true, Prod.mk.injEq, Except.ok.injEq] at h
          obtain ⟨hm1, hst⟩ := h
          subst hst
          subst hm1
          simp [hav]
    | false =>
      rw [hav] at h
      simp only [Bool.false_eq_true, if_false] at h
      cases hfind : getServiceByName st name with
      | none =>
        rw [hfind] at h
        simp only [Prod.mk.injEq, Except.ok.injEq] at h
        obtain ⟨hm1, hst⟩ := h
        subst hst
        subst hm1
        simp [hav, hfind]
      | some svc =>
        rw [hfind] at h
        simp only [hav, Bool.false_eq_true, if_false, Prod.mk.injEq, Except.ok.injEq] at h
        obtain ⟨hm1, hst⟩ := h
        subst hst
        subst hm1
        simp [hav, hfind]

/-- The cached-registry lookup never touches the database rows, the
`_redis_available` flag or the health snapshots: it only (possibly) fills the
`:method` key. -/
lemma getEffectiveConnectionMethod_preserves (st : CacheState) (name : String) :
    ((st.getEffectiveConnectionMethod name).2).registry = st.registry ∧
      ((st.getEffectiveConnectionMethod name).2).redisAvailable = st.redisAvailable ∧
      ((st.getEffectiveConnectionMethod name).2).healthCache = st.healthCache := by
  unfold CacheState.getEffectiveConnectionMethod
  split
  · exact ⟨rfl, rfl, rfl⟩
  · split
    · exact ⟨rfl, rfl, rfl⟩
    · split
      · exact ⟨rfl, rfl, rfl⟩
      · split <;> exact ⟨rfl, rfl, rfl⟩

/-- When Redis is available, the health write stores the status snapshot under
the service's `:health` key. -/
lemma updateServiceHealthCached_healthCache (st : CacheState) (name status : String) (now : Nat)
    (h : st.redisAvailable = true) :
    (st.updateServiceHealthCached name status now).healthCache name = some status := by
  unfold CacheState.updateServiceHealthCached updateHealthStatus
  cases hfind : getServiceByName st name <;> simp [hfind, h]

/-- The two call outcomes `ServiceProxy._execute_service_call` can observe
from its attempts, plus the wall-clock instant it stamps on health writes:
`routerResult` is what `_call_via_router` would do (raise or return),
`restResult` what `_call_via_rest` would do.  They model the behaviour of the
mounted local target and of the remote HTTP endpoint for the one method being
called. -/
structure ExecEnv (α : Type) where
  routerResult : Except PyError α
  restResult : Except PyError α
  now : Nat

/-- Translation of `ServiceProxy._execute_service_call`
(`src/rssbot/discovery/proxy.py`, lines 65-130): look the service up (missing
or inactive fails fast with `attempted = ["registry_lookup"]`), consult
`should_use_router` and `get_effective_connection_method`, attempt the router
when the cached decision and `has_router` allow it — any exception there is
recorded as a "degraded" health write before falling through — then attempt
REST when `rest_url` is truthy and the effective method is not `disabled` —
an exception there is recorded as a "down" health write — and finally raise
`ServiceUnavailableError` with the accumulated attempted-methods list. -/
def executeServiceCall {α : Type} (st : CacheState) (serviceName : String) (env : ExecEnv α) :
    Except PyError α × CacheState :=
  match getServiceByName st serviceName with
  | none => (.error (.serviceUnavailable serviceName ["registry_lookup"]), st)
  | some service =>
    if !service.is_active then
      (.error (.serviceUnavailable serviceName ["registry_lookup"]), st)
    else
      match st.shouldUseRouter serviceName with
      | (.error e, st1) => (.error e, st1)
      | (.ok shouldRouter, st1) =>
        match st1.getEffectiveConnectionMethod serviceName with
        | (.error e, st2) => (.error e, st2)
        | (.ok effectiveMethod, st2) =>
          if shouldRouter && service.has_router then
            match env.routerResult with
            | .ok v => (.ok v, st2)
            | .error _ =>
              let st3 := st2.updateServiceHealthCached serviceName "degraded" env.now
              if optStrTruthy service.rest_url && !(effectiveMethod == .disabled) then
                match env.restResult with
                | .ok v => (.ok v, st3)
                | .error _ =>
                  let st4 := st3.updateServiceHealthCached serviceName "down" env.now
                  (.error (.serviceUnavailable serviceName ["router", "rest"]), st4)
              else
                (.error (.serviceUnavailable serviceName ["router"]), st3)
          else
            if optStrTruthy service.rest_url && !(effectiveMethod == .disabled) then
              match env.restResult with
              | .ok v => (.ok v, st2)
              | .error _ =>
                let st4 := st2.updateServiceHealthCached serviceName "down" env.now
                (.error (.serviceUnavailable serviceName ["rest"]), st4)
            else
              (.error (.serviceUnavailable serviceName []), st2)

/-- Symbolic execution of `_execute_service_call` on the path where the
router is attempted and raises and REST is attempted and succeeds: the call
returns the REST value and the final state is the one produced by the
"degraded" health write performed before the REST attempt (a successful REST
call writes nothing). -/
lemma execCall_router_fail_rest_ok {α : Type} (st st1 : CacheState) (name : String)
    (svc : RegisteredService) (env : ExecEnv α) (e1 : PyError) (v : α)
    (hfind : getServiceByName st name = some svc)
    (hact : svc.is_active = true)
    (heff : st.getEffectiveConnectionMethod name = (.ok .router, st1))
    (hrt : svc.has_router = true)
    (hurl : optStrTruthy svc.rest_url = true)
    (hrerr : env.routerResult = .error e1)
    (hsok : env.restResult = .ok v) :
    executeServiceCall st name env =
      (.ok v, st1.updateServiceHealthCached name "degraded" env.now) := by
  have hstable := getEffectiveConnectionMethod_stable st st1 name .router heff
  unfold executeServiceCall CacheState.shouldUseRouter
  simp only [hfind, hact, Bool.not_true, Bool.false_eq_true, if_false, heff, hstable, hrt,
    hurl, hrerr, hsok, show (ConnectionMethod.router == ConnectionMethod.router) = true from rfl,
    show (ConnectionMethod.router == ConnectionMethod.disabled) = false from rfl,
    Bool.true_and, Bool.and_true, Bool.not_false, if_true]

/-- What the "degraded" health write leaves behind: the Registry row carries
health "degraded" with the write's timestamp, and (when Redis is available)
the `:health` snapshot says "degraded". -/
lemma degraded_state_observations (st st1 : CacheState) (name : String) (svc : RegisteredService)
    (now : Nat) (status : String)
    (hfind : getServiceByName st name = some svc)
    (heff : st.getEffectiveConnectionMethod name = (.ok .router, st1)) :
    getServiceByName (st1.updateServiceHealthCached name status now) name =
      some { svc with health_status := status, last_health_check := some now } ∧
      (st.redisAvailable = true →
        (st1.updateServiceHealthCached name status now).healthCache name = some status) := by
  have hp := getEffectiveConnectionMethod_preserves st name
  rw [heff] at hp
  obtain ⟨hreg, hav, -⟩ := hp
  have hfind1 : getServiceByName st1 name = some svc := by
    unfold getServiceByName at hfind ⊢
    rw [hreg]
    exact hfind
  refine ⟨getServiceByName_updateServiceHealthCached st1 name status now svc hfind1, ?_⟩
  intro havst
  exact updateServiceHealthCached_healthCache st1 name status now (by rw [hav, havst])

/-- C4: on a call where the Local (router) attempt and the Remote (REST)
attempt both fail, `_execute_service_call` raises `ServiceUnavailableError`
whose attempted-methods list is exactly the Local-then-Remote pair — the
code's mode names are "router" and "rest", the in-process and HTTP modes the
spec calls "local" and "remote" — and it returns no default value: the
outcome is this error. -/
theorem both_modes_fail_serviceUnavailable {α : Type} (st st1 : CacheState) (name : String)
    (svc : RegisteredService) (env : ExecEnv α) (e1 e2 : PyError)
    (hfind : getServiceByName st name = some svc)
    (hact : svc.is_active = true)
    (heff : st.getEffectiveConnectionMethod name = (.ok .router, st1))
    (hrt : svc.has_router = true)
    (hurl : optStrTruthy svc.rest_url = true)
    (hrerr : env.routerResult = .error e1)
    (hserr : env.restResult = .error e2) :
    (executeServiceCall st name env).1 =
      .error (.serviceUnavailable name ["router", "rest"]) := by
  have hstable := getEffectiveConnectionMethod_stable st st1 name .router heff
  unfold executeServiceCall CacheState.shouldUseRouter
  simp only [hfind, hact, Bool.not_true, Bool.false_eq_true, if_false, heff, hstable, hrt,
    hurl, hrerr, hserr, show (ConnectionMethod.router == ConnectionMethod.router) = true from rfl,
    show (ConnectionMethod.router == ConnectionMethod.disabled) = false from rfl,
    Bool.true_and, Bool.and_true, Bool.not_false, if_true]

/-- The running example used by the witnesses: an active, healthy,
router-preferred service with both a local router target and a REST URL, in a
database-only (Redis unavailable) cache state so lookups are pure Registry
reads. -/
def svcDemo : RegisteredService :=
  { name := "ai_svc", connection_method := .router, rest_url := some "http://localhost:8005",
    is_active := true, health_status := "healthy", has_router := true,
    router_path := some "services.ai_svc.router", last_health_check := none }

/-- Cache state holding only `svcDemo`, with Redis unavailable. -/
def stDemo : CacheState :=
  { registry := [svcDemo], redisAvailable := false,
    methodCache := fun _ => none, healthCache := fun _ => none }

/-- Call outcomes where both modes fail. -/
def envBothFail : ExecEnv Nat :=
  { routerResult := .error (.serviceError "router exploded"),
    restResult := .error (.httpError 500), now := 3 }

/-- Witness for C4: on `stDemo`, with the router raising and REST returning
HTTP 500, the call fails with attempted modes exactly `["router", "rest"]`. -/
theorem both_modes_fail_serviceUnavailable_witness :
    (executeServiceCall stDemo "ai_svc" envBothFail).1 =
      .error (.serviceUnavailable "ai_svc" ["router", "rest"]) :=
  both_modes_fail_serviceUnavailable stDemo stDemo "ai_svc" svcDemo envBothFail
    (.serviceError "router exploded") (.httpError 500) rfl rfl rfl rfl rfl rfl rfl

/-- C5: on a call where the Local (router) attempt raises and the Remote
(REST) attempt succeeds, the call returns the Remote result, and the health
recorded for the service as a consequence of the Local failure is "degraded"
— written to the Registry row and (when Redis is available) the cache's
health snapshot, by the write performed before the Remote attempt — not
"down". -/
theorem local_fail_remote_success_degraded {α : Type} (st st1 : CacheState) (name : String)
    (svc : RegisteredService) (env : ExecEnv α) (e1 : PyError) (v : α)
    (hfind : getServiceByName st name = some svc)
    (hact : svc.is_active = true)
    (heff : st.getEffectiveConnectionMethod name = (.ok .router, st1))
    (hrt : svc.has_router = true)
    (hurl : optStrTruthy svc.rest_url = true)
    (hrerr : env.routerResult = .error e1)
    (hsok : env.restResult = .ok v) :
    (executeServiceCall st name env).1 = .ok v ∧
      getServiceByName (executeServiceCall st name env).2 name =
        some { svc with health_status := "degraded", last_health_check := some env.now } ∧
      (st.redisAvailable = true →
        (executeServiceCall st name env).2.healthCache name = some "degraded") := by
  have hexec := execCall_router_fail_rest_ok st st1 name svc env e1 v
    hfind hact heff hrt hurl hrerr hsok
  have hobs := degraded_state_observations st st1 name svc env.now "degraded" hfind heff
  rw [hexec]
  exact ⟨rfl, hobs.1, hobs.2⟩

/-- Call outcomes where the router raises and REST succeeds with 42. -/
def envRestWins : ExecEnv Nat :=
  { routerResult := .error (.serviceError "router exploded"),
    restResult := .ok 42, now := 3 }

/-- Witness for C5 on the running example. -/
theorem local_fail_remote_success_degraded_witness :
    (executeServiceCall stDemo "ai_svc" envRestWins).1 = .ok 42 ∧
      getServiceByName (executeServiceCall stDemo "ai_svc" envRestWins).2 "ai_svc" =
        some { svcDemo with health_status := "degraded", last_health_check := some 3 } ∧
      (stDemo.redisAvailable = true →
        (executeServiceCall stDemo "ai_svc" envRestWins).2.healthCache "ai_svc" =
          some "degraded") :=
  local_fail_remote_success_degraded stDemo stDemo "ai_svc" svcDemo envRestWins
    (.serviceError "router exploded") 42 rfl rfl rfl rfl rfl rfl rfl

/-- Call outcomes where the local target lacks the method (the
`AttributeError` of `_call_via_router`) and REST succeeds with 42. -/
def envMissingMethod : ExecEnv Nat :=
  { routerResult := .error (.attributeError "Method 'summarize' not found on router for ai_svc"),
    restResult := .ok 42, now := 3 }

/-- C9 counterexample: a Local-mode call whose method does not exist on the
local target IS retried via the Remote mode of the same service —
`_execute_service_call` catches the missing-method `AttributeError` like any
router failure and falls through to REST (the source comment reads "this
might be a REST-only method") — so the call returns the Remote value instead
of failing with a distinguishable unsupported-method error. -/
theorem unsupportedMethod_falls_back_counterexample :
    envMissingMethod.routerResult =
      .error (.attributeError "Method 'summarize' not found on router for ai_svc") ∧
      (executeServiceCall stDemo "ai_svc" envMissingMethod).1 = .ok 42 := by
  exact ⟨rfl, rfl⟩

/-- C9 as amended: a Local-mode call whose method does not exist on the local
target fails locally with `AttributeError`, but the router layer does not
treat that error specially: it is handled like any Local failure — the
service's health is downgraded to "degraded" and the call IS retried via the
Remote (REST) mode of the same service, whose result is returned when it
succeeds. -/
theorem unsupportedMethod_retried_via_rest {α : Type} (st st1 : CacheState) (name : String)
    (svc : RegisteredService) (env : ExecEnv α) (msg : String) (v : α)
    (hfind : getServiceByName st name = some svc)
    (hact : svc.is_active = true)
    (heff : st.getEffectiveConnectionMethod name = (.ok .router, st1))
    (hrt : svc.has_router = true)
    (hurl : optStrTruthy svc.rest_url = true)
    (hrerr : env.routerResult = .error (.attributeError msg))
    (hsok : env.restResult = .ok v) :
    (executeServiceCall st name env).1 = .ok v ∧
      getServiceByName (executeServiceCall st name env).2 name =
        some { svc with health_status := "degraded", last_health_check := some env.now } := by
  have hexec := execCall_router_fail_rest_ok st st1 name svc env (.attributeError msg) v
    hfind hact heff hrt hurl hrerr hsok
  have hobs := degraded_state_observations st st1 name svc env.now "degraded" hfind heff
  rw [hexec]
  exact ⟨rfl, hobs.1⟩

/-- Witness for the amended C9 on the running example. -/
theorem unsupportedMethod_retried_via_rest_witness :
    (executeServiceCall stDemo "ai_svc" envMissingMethod).1 = .ok 42 ∧
      getServiceByName (executeServiceCall stDemo "ai_svc" envMissingMethod).2 "ai_svc" =
        some { svcDemo with health_status := "degraded", last_health_check := some 3 } :=
  unsupportedMethod_retried_via_rest stDemo stDemo "ai_svc" svcDemo envMissingMethod
    "Method 'summarize' not found on router for ai_svc" 42 rfl rfl rfl rfl rfl rfl rfl

/-- The three lanes of `PriorityLevel` in `evox/core/queue.py`. -/
inductive PriorityLevel where
  | high
  | medium
  | low
deriving DecidableEq, Repr

/-- One `Nat` per lane, the shape of every per-priority dictionary in
`PriorityAwareQueue` (`queues` sizes, `active_workers`, the `stats`
counters, and the two limit tables). -/
structure LaneCounts where
  high : Nat
  medium : Nat
  low : Nat
deriving DecidableEq, Repr

/-- Dictionary read `d[priority]`. -/
def LaneCounts.get (c : LaneCounts) : PriorityLevel → Nat
  | .high => c.high
  | .medium => c.medium
  | .low => c.low

/-- Dictionary write `d[priority] += 1`. -/
def LaneCounts.bump (c : LaneCounts) : PriorityLevel → LaneCounts
  | .high => { c with high := c.high + 1 }
  | .medium => { c with medium := c.medium + 1 }
  | .low => { c with low := c.low + 1 }

/-- Dictionary write `d[priority] = max(0, d[priority] - 1)`, the guarded
decrement used by `decrement_queue_length` and `_execute_request`'s
`finally` block (`Nat` subtraction is already truncated). -/
def LaneCounts.drop (c : LaneCounts) : PriorityLevel → LaneCounts
  | .high => { c with high := c.high - 1 }
  | .medium => { c with medium := c.medium - 1 }
  | .low => { c with low := c.low - 1 }

/-- The two limit tables of `PriorityAwareQueue.__init__`:
`concurrency_limits` and `queue_limits`. -/
structure QueueConfig where
  concurrencyLimits : LaneCounts
  queueLimits : LaneCounts
deriving DecidableEq, Repr

/-- The defaults of `evox/core/queue.py` lines 146-157: concurrency 10/5/2,
queue depth 50/100/200 for high/medium/low. -/
def defaultQueueConfig : QueueConfig :=
  { concurrencyLimits := { high := 10, medium := 5, low := 2 },
    queueLimits := { high := 50, medium := 100, low := 200 } }

/-- The mutable state of one `PriorityAwareQueue`: the item count of each
`asyncio.Queue` (items are put by `submit` and never taken out), the
`stats.queue_lengths` / `stats.admission_rejections` / `stats.processed_count`
counters, the number of admitted requests whose `_execute_request` has not
started yet, and `active_workers`. -/
structure QueueState where
  queued : LaneCounts
  statsQueueLengths : LaneCounts
  rejections : LaneCounts
  processed : LaneCounts
  pendingExec : LaneCounts
  activeWorkers : LaneCounts
deriving DecidableEq, Repr

/-- Fresh queue: every counter zero (`PriorityAwareQueue.__init__`). -/
def initQueueState : QueueState :=
  { queued := ⟨0, 0, 0⟩, statsQueueLengths := ⟨0, 0, 0⟩, rejections := ⟨0, 0, 0⟩,
    processed := ⟨0, 0, 0⟩, pendingExec := ⟨0, 0, 0⟩, activeWorkers := ⟨0, 0, 0⟩ }

/-- When `put_nowait` raises `asyncio.QueueFull`: the queue has a positive
`maxsize` and is at or above it (an `asyncio.Queue` with `maxsize <= 0` is
unbounded). -/
def queueIsFull (cfg : QueueConfig) (st : QueueState) (p : PriorityLevel) : Bool :=
  decide (0 < cfg.queueLimits.get p) && decide (cfg.queueLimits.get p ≤ st.queued.get p)

/-- The error of the admission-control rejection in
`PriorityAwareQueue.submit` (lines 236-243): the `RuntimeError` whose message
is "Queue full for priority " followed by the lane name — the spec's
`QueueFull` — carrying the priority it names. -/
inductive QueueError where
  | queueFull (p : PriorityLevel)
deriving DecidableEq, Repr

/-- The synchronous admission prefix of `PriorityAwareQueue.submit`
(`evox/core/queue.py`, lines 236-243): `put_nowait` into the lane's queue and
`increment_queue_length` on success; on `asyncio.QueueFull`,
`increment_admission_rejection` and raise.  No suspension point is crossed,
so the caller is never blocked waiting for space. -/
def submitAdmission (cfg : QueueConfig) (st : QueueState) (p : PriorityLevel) :
    Except QueueError Unit × QueueState :=
  if queueIsFull cfg st p then
    (.error (.queueFull p), { st with rejections := st.rejections.bump p })
  else
    (.ok (), { st with queued := st.queued.bump p,
                       statsQueueLengths := st.statsQueueLengths.bump p,
                       pendingExec := st.pendingExec.bump p })

/-- The interleaved small-step behaviour of `PriorityAwareQueue` under
cooperative concurrency: `admit`/`reject` are the admission prefix of one
`submit` call, `beginExec` is an admitted `submit` entering
`_execute_request` (increment `active_workers`, count processed), and
`finishExec` is `_execute_request` finishing (guarded decrement of
`active_workers`, then `submit`'s `finally` running `decrement_queue_length`).
Note `beginExec` has NO guard on `active_workers` against
`concurrency_limits`: the source starts executing every admitted request
immediately. -/
inductive QueueStep (cfg : QueueConfig) : QueueState → QueueState → Prop where
  | admitCall (st : QueueState) (p : PriorityLevel) (h : queueIsFull cfg st p = false) :
      QueueStep cfg st { st with queued := st.queued.bump p,
                                 statsQueueLengths := st.statsQueueLengths.bump p,
                                 pendingExec := st.pendingExec.bump p }
  | reject (st : QueueState) (p : PriorityLevel) (h : queueIsFull cfg st p = true) :
      QueueStep cfg st { st with rejections := st.rejections.bump p }
  | beginExec (st : QueueState) (p : PriorityLevel) (h : 0 < st.pendingExec.get p) :
      QueueStep cfg st { st with pendingExec := st.pendingExec.drop p,
                                 activeWorkers := st.activeWorkers.bump p,
                                 processed := st.processed.bump p }
  | finishExec (st : QueueState) (p : PriorityLevel) :
      QueueStep cfg st { st with activeWorkers := st.activeWorkers.drop p,
                                 statsQueueLengths := st.statsQueueLengths.drop p }

/-- States reachable from a fresh queue by any interleaving of submissions,
executions and completions. -/
def QueueReachable (cfg : QueueConfig) (st : QueueState) : Prop :=
  Relation.ReflTransGen (QueueStep cfg) initQueueState st

/-- The state after `n` high-lane requests were each admitted and began
executing, none having completed yet. -/
def highSaturatedState (n : Nat) : QueueState :=
  { queued := ⟨n, 0, 0⟩, statsQueueLengths := ⟨n, 0, 0⟩, rejections := ⟨0, 0, 0⟩,
    processed := ⟨n, 0, 0⟩, pendingExec := ⟨0, 0, 0⟩, activeWorkers := ⟨n, 0, 0⟩ }

/-- Intermediate state: `k` high-lane requests executing and one more
admitted whose execution has not started yet. -/
def highMidState (k : Nat) : QueueState :=
  { queued := ⟨k + 1, 0, 0⟩, statsQueueLengths := ⟨k + 1, 0, 0⟩, rejections := ⟨0, 0, 0⟩,
    processed := ⟨k, 0, 0⟩, pendingExec := ⟨1, 0, 0⟩, activeWorkers := ⟨k, 0, 0⟩ }

/-- Under the default configuration, `highSaturatedState n` is reachable for
every `n` up to the high lane's queue-depth cap of 50 — nothing stops the
51st, 52nd, ... execution short of queue depth, because `beginExec` never
consults `concurrency_limits`. -/
lemma highSaturatedState_reachable (n : Nat) (h : n ≤ 50) :
    QueueReachable defaultQueueConfig (highSaturatedState n) := by
  induction n with
  | zero => exact Relation.ReflTransGen.refl
  | succ k ih =>
    have hk : k ≤ 50 := Nat.le_of_succ_le h
    have step1 : QueueStep defaultQueueConfig (highSaturatedState k) (highMidState k) := by
      have hlt : k < 50 := Nat.lt_of_succ_le h
      exact QueueStep.admitCall (highSaturatedState k) .high
        (by simp [queueIsFull, defaultQueueConfig, highSaturatedState, LaneCounts.get]; omega)
    have step2 : QueueStep defaultQueueConfig (highMidState k)
        (highSaturatedState (k + 1)) := by
      exact QueueStep.beginExec (highMidState k) .high
        (by simp [highMidState, LaneCounts.get])
    exact Relation.ReflTransGen.tail (Relation.ReflTransGen.tail (ih hk) step1) step2

/-- C3 (code defect): the per-lane concurrency cap is NOT enforced.  The
state with eleven concurrently-executing high-lane calls is reachable from a
fresh queue under the default configuration whose high cap is 10: `submit`
starts `_execute_request` for every admitted request immediately, and
`_execute_request` increments `active_workers` with no check against
`concurrency_limits` (which the class stores and reports in `get_stats` but
never consults).  This exhibits the code at the failing input: eleven
overlapping high-priority submissions. -/
theorem admission_queue_exceeds_concurrency_cap :
    QueueReachable defaultQueueConfig (highSaturatedState 11) ∧
      defaultQueueConfig.concurrencyLimits.get .high = 10 ∧
      (highSaturatedState 11).activeWorkers.get .high = 11 := by
  exact ⟨highSaturatedState_reachable 11 (by decide), rfl, rfl⟩

/-- C6: a submit against a lane whose queue depth is at its (positive)
queue-depth cap fails immediately — `put_nowait` raises without suspending,
so the caller is never blocked — with the queue-full error naming that lane,
and the only state change is that lane's rejected-admission counter
incrementing. -/
theorem submit_at_capacity_rejected (cfg : QueueConfig) (st : QueueState) (p : PriorityLevel)
    (h1 : st.queued.get p = cfg.queueLimits.get p)
    (h2 : 0 < cfg.queueLimits.get p) :
    submitAdmission cfg st p =
      (.error (.queueFull p), { st with rejections := st.rejections.bump p }) := by
  unfold submitAdmission
  have hfull : queueIsFull cfg st p = true := by
    simp [queueIsFull, h1, h2]
  rw [hfull]
  simp

/-- Witness for C6: the high lane at its default cap of 50. -/
theorem submit_at_capacity_rejected_witness :
    submitAdmission defaultQueueConfig (highSaturatedState 50) .high =
      (.error (.queueFull .high),
        { highSaturatedState 50 with
          rejections := (highSaturatedState 50).rejections.bump .high }) :=
  submit_at_capacity_rejected defaultQueueConfig (highSaturatedState 50) .high rfl (by decide)

/-- One coroutine handed to `CallScheduler.parallel` (`evox/core/scheduler.py`):
`delay` is the time it takes to complete, `result` its outcome (a raised
exception's message, or a value).  The embedding assumes `concurrency` is at
least the batch size, so the semaphore never defers a start and completion
order is delay order (ties resolved in input order, asyncio's FIFO callback
scheduling). -/
structure SchedOp (α : Type) where
  delay : Nat
  result : Except String α

/-- One slot of the list `CallScheduler.parallel` returns under
`Policy.PARTIAL_OK`: either a result value or the wrapped error dictionary
built from `str(e)`. -/
inductive PartialResult (α : Type) where
  | val (v : α)
  | errWrapped (msg : String)
deriving DecidableEq, Repr

/-- The `try/except` body of the `PARTIAL_OK` collection loop: a success is
appended as-is, an exception is appended wrapped. -/
def toPartialResult {α : Type} : Except String α → PartialResult α
  | .ok v => .val v
  | .error e => .errWrapped e

/-- Stable insertion by completion time (earlier delay first; on a tie the
element already earlier keeps its place). -/
def insertByDelay {α : Type} (op : SchedOp α) : List (SchedOp α) → List (SchedOp α)
  | [] => [op]
  | o :: rest => if op.delay ≤ o.delay then op :: o :: rest else o :: insertByDelay op rest

/-- The order in which `asyncio.as_completed` yields the batch: ascending
completion time, stably. -/
def sortByDelay {α : Type} : List (SchedOp α) → List (SchedOp α)
  | [] => []
  | op :: rest => insertByDelay op (sortByDelay rest)

/-- Translation of `CallScheduler.parallel` under `Policy.PARTIAL_OK`
(`evox/core/scheduler.py`, lines 74-83): iterate `asyncio.as_completed(tasks)`
— completion order, NOT input order — appending each success and each wrapped
failure. -/
def parallelPartialOk {α : Type} (ops : List (SchedOp α)) : List (PartialResult α) :=
  (sortByDelay ops).map (fun op => toPartialResult op.result)

/-- Whether a scheduled operation raises. -/
def isFailure {α : Type} (op : SchedOp α) : Bool :=
  match op.result with
  | .ok _ => false
  | .error _ => true

/-- The exception `asyncio.gather(*tasks)` (no `return_exceptions`)
propagates: the error of the earliest-completing failing task, `none` if
every task succeeds. -/
def firstError {α : Type} (ops : List (SchedOp α)) : Option String :=
  (sortByDelay ops).findSome? (fun op =>
    match op.result with
    | .ok _ => none
    | .error e => some e)

/-- Translation of `CallScheduler.parallel` under `Policy.ALL_OR_NOTHING`
(`evox/core/scheduler.py`, lines 71-73): `await asyncio.gather(*tasks)`,
which raises the first exception and otherwise returns the results in input
order. -/
def parallelAllOrNothing {α : Type} (ops : List (SchedOp α)) : Except String (List α) :=
  match firstError ops with
  | some e => .error e
  | none => .ok (ops.filterMap (fun op =>
      match op.result with
      | .ok v => some v
      | .error _ => none))

/-- What happens to a task of the batch: it ran to completion, or it was
cancelled. -/
inductive TaskFate where
  | completed
  | cancelled
deriving DecidableEq, Repr

/-- The fate of each task in the `ALL_OR_NOTHING` batch.  CPython's documented
`asyncio.gather` semantics without `return_exceptions`: when a task raises,
the exception propagates to the awaiter but "other awaitables in the sequence
won't be cancelled and will continue to run" — so every task of the batch
runs to completion. -/
def parallelAllOrNothingFates {α : Type} (ops : List (SchedOp α)) : List TaskFate :=
  ops.map (fun _ => TaskFate.completed)

/-- Inserting preserves the multiset of operations. -/
lemma insertByDelay_perm {α : Type} (op : SchedOp α) (l : List (SchedOp α)) :
    (insertByDelay op l).Perm (op :: l) := by
  induction l with
  | nil => simp [insertByDelay]
  | cons o rest ih =>
    unfold insertByDelay
    split
    · exact List.Perm.refl _
    · exact (ih.cons o).trans (List.Perm.swap op o rest)

/-- Completion-order sorting is a permutation of the batch. -/
lemma sortByDelay_perm {α : Type} (l : List (SchedOp α)) : (sortByDelay l).Perm l := by
  induction l with
  | nil => exact List.Perm.refl _
  | cons op rest ih =>
    exact (insertByDelay_perm op (sortByDelay rest)).trans (ih.cons op)

/-- C7 counterexample: on the claim's own scenario [ok, fail, ok] — here with
completion delays 5, 1 and 2 — `parallel` under `partial_ok` returns the
slots in completion order [wrapped error, second ok, first ok], not in the
claimed input order [first ok, wrapped error, second ok]. -/
theorem partialOk_completion_order_counterexample :
    parallelPartialOk [⟨5, .ok (10 : Nat)⟩, ⟨1, .error "boom"⟩, ⟨2, .ok 30⟩] =
      [.errWrapped "boom", .val 30, .val 10] ∧
      [PartialResult.errWrapped "boom", PartialResult.val 30, PartialResult.val 10] ≠
        [PartialResult.val (10 : Nat), PartialResult.errWrapped "boom",
          PartialResult.val 30] := by
  exact ⟨rfl, by decide⟩

/-- C7 as amended: `parallel` under `partial_ok` returns a result list of the
same length as the input, holding exactly one slot per operation — each
failed operation contributing a wrapped error value and each successful one
its result — but ordered by completion (`asyncio.as_completed`), i.e. a
permutation of the input-order slot list, not the input order itself. -/
theorem partialOk_length_and_slots {α : Type} (ops : List (SchedOp α)) :
    (parallelPartialOk ops).length = ops.length ∧
      (parallelPartialOk ops).Perm (ops.map (fun op => toPartialResult op.result)) := by
  have hperm := sortByDelay_perm ops
  constructor
  · unfold parallelPartialOk
    rw [List.length_map, hperm.length_eq]
  · exact hperm.map _

/-- `findSome?` of the error extractor yields a value on any list containing
a failing operation. -/
lemma findSome?_err_isSome {α : Type} (l : List (SchedOp α)) (op : SchedOp α)
    (hmem : op ∈ l) (hfail : isFailure op = true) :
    ∃ e, l.findSome? (fun o =>
        match o.result with
        | .ok _ => none
        | .error e => some e) = some e := by
  induction l with
  | nil => cases hmem
  | cons o rest ih =>
    cases List.mem_cons.mp hmem with
    | inl hop =>
      subst hop
      unfold isFailure at hfail
      cases hr : op.result with
      | ok v => rw [hr] at hfail; simp at hfail
      | error e => exact ⟨e, by simp [List.findSome?, hr]⟩
    | inr hop =>
      cases hr : o.result with
      | ok v =>
        obtain ⟨e, he⟩ := ih hop
        exact ⟨e, by simp [List.findSome?, hr, he]⟩
      | error e => exact ⟨e, by simp [List.findSome?, hr]⟩

/-- A batch with a failing operation yields a first error. -/
lemma firstError_isSome_of_any {α : Type} (ops : List (SchedOp α))
    (h : ops.any isFailure = true) : ∃ e, firstError ops = some e := by
  obtain ⟨op, hmem, hfail⟩ := List.any_eq_true.mp h
  exact findSome?_err_isSome (sortByDelay ops) op
    ((sortByDelay_perm ops).mem_iff.mpr hmem) hfail

/-- C8 counterexample: a two-operation batch where the first (completing
first) fails and the second succeeds — `parallel` under `all_or_nothing`
propagates the error, but the remaining in-flight sibling is NOT cancelled:
`asyncio.gather` without `return_exceptions` lets it run to completion, and
its successful outcome is discarded. -/
theorem allOrNothing_no_cancel_counterexample :
    parallelAllOrNothing [⟨1, .error "boom"⟩, ⟨2, .ok (7 : Nat)⟩] = .error "boom" ∧
      parallelAllOrNothingFates [(⟨1, .error "boom"⟩ : SchedOp Nat), ⟨2, .ok 7⟩] =
        [.completed, .completed] ∧
      TaskFate.completed ≠ TaskFate.cancelled := by
  refine ⟨rfl, rfl, by decide⟩

/-- C8 as amended: in every `all_or_nothing` batch containing a failure, the
earliest failure's error propagates to the caller, but the remaining
in-flight sibling operations are NOT cancelled — every task of the batch runs
to completion, and the successes' outcomes are discarded rather than
returned. -/
theorem allOrNothing_error_propagates {α : Type} (ops : List (SchedOp α))
    (h : ops.any isFailure = true) :
    (∃ e, parallelAllOrNothing ops = .error e) ∧
      (parallelAllOrNothingFates ops).all (fun f => f == .completed) = true := by
  constructor
  · obtain ⟨e, he⟩ := firstError_isSome_of_any ops h
    exact ⟨e, by unfold parallelAllOrNothing; rw [he]⟩
  · simp [parallelAllOrNothingFates]

/-- Witness for the amended C8: the spec's own scenario, one failing
operation among five. -/
theorem allOrNothing_error_propagates_witness :
    (∃ e, parallelAllOrNothing
        [⟨1, .ok (1 : Nat)⟩, ⟨2, .ok 2⟩, ⟨3, .error "boom"⟩, ⟨4, .ok 4⟩, ⟨5, .ok 5⟩] =
          .error e) ∧
      (parallelAllOrNothingFates
        [(⟨1, .ok (1 : Nat)⟩ : SchedOp Nat), ⟨2, .ok 2⟩, ⟨3, .error "boom"⟩, ⟨4, .ok 4⟩,
          ⟨5, .ok 5⟩]).all (fun f => f == .completed) = true :=
  allOrNothing_error_propagates
    [⟨1, .ok (1 : Nat)⟩, ⟨2, .ok 2⟩, ⟨3, .error "boom"⟩, ⟨4, .ok 4⟩, ⟨5, .ok 5⟩] (by decide)

end RssBot
